import Mathlib

/-!
Verification of the image-manipulation batch tool (two task variants):
task-1 draws validated primitives (rectangle, circle, text) on a raster
buffer; task-2 builds and applies a directional motion-blur kernel.

The shallow embedding below translates the Python source.  External
collaborators (the `cv2` rasterization/convolution/decode primitives and
the `os` filesystem) are passed in as explicit function parameters, per
the spec's external-interface section.  `numpy` float matrices are
modelled over `ℚ`; `uint8` channel values over `Nat`.
-/

/-- A pixel: three 8-bit channel values stored as naturals, ordered (B, G, R). -/
abbrev Color : Type := Nat × Nat × Nat

/-- A raster buffer: `shape = (height, width, 3)`, row-major pixel data. -/
structure Img where
  height : Nat
  width : Nat
  data : List (List Color)
deriving DecidableEq

/-- The fallback canvas `np.zeros((400, 600, 3), dtype=np.uint8)` shared by
both task variants: 400 rows, 600 columns, all channels zero. -/
def blackCanvas : Img :=
  { height := 400, width := 600,
    data := List.replicate 400 (List.replicate 600 ((0, 0, 0) : Color)) }

namespace Task1

/-- Model of `load_image` from `src/task-1/main.py`.  `pathExists` models
`os.path.exists`; `imread` models `cv2.imread`, returning `none` when the
file cannot be decoded (Python `None`).  A `none` / empty path is falsy in
the Python condition `if image_path and os.path.exists(image_path)`. -/
def load_image (pathExists : String → Bool) (imread : String → Option Img)
    (image_path : Option String) : Img :=
  match image_path with
  | some p =>
    if p ≠ "" ∧ pathExists p = true then
      match imread p with
      | some image => image
      | none => blackCanvas
    else
      blackCanvas
  | none => blackCanvas

/-- Model of `validate_coordinates` from `src/task-1/main.py`.  `some b` is a normal
boolean return; `none` is the `ValueError` Python would raise if tuple
unpacking failed (coordinate arity not matching the shape type). -/
def validate_coordinates (image : Img) (coordinates : List Int)
    (shape_type : String) : Option Bool :=
  let height : Int := image.height
  let width : Int := image.width
  if shape_type = "rectangle" then
    match coordinates with
    | [x1, y1, x2, y2] =>
      some (decide (0 ≤ x1 ∧ x1 < width ∧ 0 ≤ y1 ∧ y1 < height ∧
                    0 ≤ x2 ∧ x2 < width ∧ 0 ≤ y2 ∧ y2 < height ∧
                    x1 < x2 ∧ y1 < y2))
    | _ => none
  else if shape_type = "circle" then
    match coordinates with
    | [x, y, radius] =>
      some (decide (0 ≤ x - radius ∧ x + radius < width ∧
                    0 ≤ y - radius ∧ y + radius < height ∧
                    radius > 0))
    | _ => none
  else if shape_type = "text" then
    match coordinates with
    | [x, y] => some (decide (0 ≤ x ∧ x < width ∧ 0 ≤ y ∧ y < height))
    | _ => none
  else
    some false

/-- Model of `draw_rectangle` from `src/task-1/main.py`.  `cv2_rectangle` is the
external rasterization primitive; the warning print on the invalid branch
is a side effect outside the buffer and is not modelled. -/
def draw_rectangle (cv2_rectangle : Img → Int × Int → Int × Int → Color → Int → Img)
    (image : Img) (start_point end_point : Int × Int) (color : Color)
    (thickness : Int) : Img :=
  if validate_coordinates image
      [start_point.1, start_point.2, end_point.1, end_point.2] "rectangle" = some true then
    cv2_rectangle image start_point end_point color thickness
  else
    image

/-- Model of `draw_circle` from `src/task-1/main.py`, with `cv2.circle` external. -/
def draw_circle (cv2_circle : Img → Int × Int → Int → Color → Int → Img)
    (image : Img) (center : Int × Int) (radius : Int) (color : Color)
    (thickness : Int) : Img :=
  if validate_coordinates image [center.1, center.2, radius] "circle" = some true then
    cv2_circle image center radius color thickness
  else
    image

/-- Model of `draw_text` from `src/task-1/main.py`, with `cv2.putText` external.
`font` and `line_type` are the integer font / line-style identifiers and
`font_scale` the float scale, all forwarded untouched. -/
def draw_text (cv2_putText : Img → String → Int × Int → Int → ℚ → Color → Int → Int → Img)
    (image : Img) (text : String) (position : Int × Int) (font : Int)
    (font_scale : ℚ) (color : Color) (thickness : Int) (line_type : Int) : Img :=
  if validate_coordinates image [position.1, position.2] "text" = some true then
    cv2_putText image text position font font_scale color thickness line_type
  else
    image

end Task1

namespace Task2

/-- Model of `load_image` from `src/task-2/main.py` — textually the same function as
the task-1 variant, duplicated in the second file. -/
def load_image (pathExists : String → Bool) (imread : String → Option Img)
    (image_path : Option String) : Img :=
  match image_path with
  | some p =>
    if p ≠ "" ∧ pathExists p = true then
      match imread p with
      | some image => image
      | none => blackCanvas
    else
      blackCanvas
  | none => blackCanvas

/-- Model of `create_motion_blur_kernel` from `src/task-2/main.py`.  `numpy` float
matrices become `List (List ℚ)`.  `Except.error` models the raised
`ValueError`s: the explicit odd-size and direction checks of the source,
plus the `ValueError` `np.zeros((k, k))` itself raises for a negative
dimension (reached when `kernel_size` is odd and negative). -/
def create_motion_blur_kernel (kernel_size : Int) (direction : String) :
    Except String (List (List ℚ)) := do
  if kernel_size % 2 = 0 then
    throw "kernel_size must be an odd number"
  if kernel_size < 0 then
    throw "negative dimensions are not allowed"
  let n : Nat := kernel_size.toNat
  let kernel := List.replicate n (List.replicate n (0 : ℚ))
  let kernel ←
    if direction = "horizontal" then
      pure (kernel.set ((n - 1) / 2) (List.replicate n (1 : ℚ)))
    else if direction = "vertical" then
      pure (kernel.map (fun row => row.set ((n - 1) / 2) (1 : ℚ)))
    else
      throw "direction must be horizontal or vertical"
  return kernel.map (fun row => row.map (fun c => c / (kernel_size : ℚ)))

end Task2

/-- Entry `(i, j)` of a kernel matrix, 0 outside the stored extent. -/
def cell (m : List (List ℚ)) (i j : Nat) : ℚ := (m.getD i []).getD j 0

namespace Task2

/-- OpenCV `BORDER_REFLECT_101` index folding (the `cv2.filter2D` default):
an out-of-range coordinate is reflected about the edge pixel without
repeating it (`-1 ↦ 1`, `n ↦ n - 2`).  Closed form over the period
`2n - 2`. -/
def reflect101 (n : Nat) (i : Int) : Nat :=
  if n ≤ 1 then 0
  else
    let p : Int := 2 * n - 2
    let m := i % p
    if m < n then m.toNat else (p - m).toNat

/-- Pixel at row `y`, column `x` of a buffer (black outside the data). -/
def pixelAt (image : Img) (y x : Nat) : Color :=
  (image.data.getD y []).getD x ((0, 0, 0) : Color)

/-- One output coefficient of `cv2.filter2D`: the correlation sum of the
kernel against the channel values around `(y, x)`, anchor at the kernel
center, borders reflected. -/
def convSum (image : Img) (kernel : List (List ℚ)) (sel : Color → Nat)
    (y x : Nat) : ℚ :=
  let kh := kernel.length
  let kw := (kernel.headD []).length
  ((List.range kh).map (fun i =>
    ((List.range kw).map (fun j =>
      (kernel.getD i []).getD j 0 *
        (sel (pixelAt image (reflect101 image.height ((y : Int) + i - kh / 2))
                           (reflect101 image.width ((x : Int) + j - kw / 2))) : ℚ))).sum)).sum

/-- OpenCV `saturate_cast<uchar>` applied to the rounded convolution sum: clamp
into the 8-bit range. -/
def saturate_u8 (q : ℚ) : Nat := (max 0 (min 255 (round q))).toNat

/-- Model of `apply_motion_blur` from `src/task-2/main.py`: `cv2.filter2D(image, -1,
kernel)` — per-channel 2D correlation at the input size and depth. -/
def apply_motion_blur (image : Img) (kernel : List (List ℚ)) : Img :=
  { height := image.height, width := image.width,
    data := (List.range image.height).map (fun y =>
      (List.range image.width).map (fun x =>
        ((saturate_u8 (convSum image kernel (fun c => c.1) y x),
          saturate_u8 (convSum image kernel (fun c => c.2.1) y x),
          saturate_u8 (convSum image kernel (fun c => c.2.2) y x)) : Color))) }

end Task2

/-- An all-zero (black) `H×W×3` buffer. -/
def zero_canvas (H W : Nat) : Img :=
  { height := H, width := W,
    data := List.replicate H (List.replicate W ((0, 0, 0) : Color)) }

/-! ## Theorems about the Bounds Validator -/

/-- C4: on an `H×W` buffer, circle validation succeeds exactly when
`x - radius ≥ 0`, `x + radius < W`, `y - radius ≥ 0`, `y + radius < H`
and `radius > 0` (inclusive lower bounds, strict upper bounds). -/
theorem circle_validation_characterization (H W : Nat) (d : List (List Color))
    (x y radius : Int) :
    Task1.validate_coordinates ⟨H, W, d⟩ [x, y, radius] "circle" = some true ↔
      (0 ≤ x - radius ∧ x + radius < (W : Int) ∧
       0 ≤ y - radius ∧ y + radius < (H : Int) ∧ radius > 0) := by
  simp [Task1.validate_coordinates]

/-- C5: on an `H×W` buffer, rectangle validation succeeds exactly when both
corners lie in `[0,W) × [0,H)` and additionally `x1 < x2` and `y1 < y2`;
degenerate and inverted rectangles are rejected. -/
theorem rectangle_validation_characterization (H W : Nat) (d : List (List Color))
    (x1 y1 x2 y2 : Int) :
    Task1.validate_coordinates ⟨H, W, d⟩ [x1, y1, x2, y2] "rectangle" = some true ↔
      (0 ≤ x1 ∧ x1 < (W : Int) ∧ 0 ≤ y1 ∧ y1 < (H : Int) ∧
       0 ≤ x2 ∧ x2 < (W : Int) ∧ 0 ≤ y2 ∧ y2 < (H : Int) ∧
       x1 < x2 ∧ y1 < y2) := by
  simp [Task1.validate_coordinates]

/-- C8: on an `H×W` buffer, text validation succeeds exactly when the
anchor lies in `[0,W) × [0,H)`; no bound involves the rendered extent, so
the check depends on nothing but the anchor coordinates. -/
theorem text_validation_characterization (H W : Nat) (d : List (List Color))
    (x y : Int) :
    Task1.validate_coordinates ⟨H, W, d⟩ [x, y] "text" = some true ↔
      (0 ≤ x ∧ x < (W : Int) ∧ 0 ≤ y ∧ y < (H : Int)) := by
  simp [Task1.validate_coordinates]

/-- C6: the validator is total — out-of-range coordinates of any of the
three recognized shapes yield `some false` (a returned boolean, never an
exception), and any unrecognized shape tag yields `some false`. -/
theorem validate_coordinates_total :
    (∀ (image : Img) (x1 y1 x2 y2 : Int),
      ¬(0 ≤ x1 ∧ x1 < (image.width : Int) ∧ 0 ≤ y1 ∧ y1 < (image.height : Int) ∧
        0 ≤ x2 ∧ x2 < (image.width : Int) ∧ 0 ≤ y2 ∧ y2 < (image.height : Int) ∧
        x1 < x2 ∧ y1 < y2) →
      Task1.validate_coordinates image [x1, y1, x2, y2] "rectangle" = some false) ∧
    (∀ (image : Img) (x y radius : Int),
      ¬(0 ≤ x - radius ∧ x + radius < (image.width : Int) ∧
        0 ≤ y - radius ∧ y + radius < (image.height : Int) ∧ radius > 0) →
      Task1.validate_coordinates image [x, y, radius] "circle" = some false) ∧
    (∀ (image : Img) (x y : Int),
      ¬(0 ≤ x ∧ x < (image.width : Int) ∧ 0 ≤ y ∧ y < (image.height : Int)) →
      Task1.validate_coordinates image [x, y] "text" = some false) ∧
    (∀ (image : Img) (coordinates : List Int) (tag : String),
      tag ≠ "rectangle" → tag ≠ "circle" → tag ≠ "text" →
      Task1.validate_coordinates image coordinates tag = some false) := by
  refine ⟨?_, ?_, ?_, ?_⟩
  · intro image x1 y1 x2 y2 h
    simp [Task1.validate_coordinates]
    omega
  · intro image x y radius h
    simp [Task1.validate_coordinates]
    omega
  · intro image x y h
    simp [Task1.validate_coordinates]
    omega
  · intro image coordinates tag h1 h2 h3
    simp [Task1.validate_coordinates, h1, h2, h3]

/-- Witness for C6 at concrete inputs: an out-of-range circle on a 4×4
buffer and an unrecognized tag both give `some false`. -/
theorem validate_coordinates_total_witness :
    Task1.validate_coordinates ⟨4, 4, []⟩ [9, 9, 2] "circle" = some false ∧
    Task1.validate_coordinates ⟨4, 4, []⟩ [1, 1] "triangle" = some false :=
  ⟨validate_coordinates_total.2.1 ⟨4, 4, []⟩ 9 9 2 (by decide),
   validate_coordinates_total.2.2.2 ⟨4, 4, []⟩ [1, 1] "triangle"
     (by decide) (by decide) (by decide)⟩

/-! ## Theorems about the Shape Renderer and Canvas Loader -/

/-- C3: whichever rasterization primitives `cv2` supplies, a shape that
fails validation is not drawn — each draw function returns the buffer it
was given, unchanged. -/
theorem invalid_shape_render_noop
    (cv2_rectangle : Img → Int × Int → Int × Int → Color → Int → Img)
    (cv2_circle : Img → Int × Int → Int → Color → Int → Img)
    (cv2_putText : Img → String → Int × Int → Int → ℚ → Color → Int → Int → Img)
    (image : Img) (start_point end_point : Int × Int) (color : Color)
    (thickness : Int) (center : Int × Int) (radius : Int) (text : String)
    (position : Int × Int) (font : Int) (font_scale : ℚ) (line_type : Int) :
    (Task1.validate_coordinates image
        [start_point.1, start_point.2, end_point.1, end_point.2] "rectangle" = some false →
      Task1.draw_rectangle cv2_rectangle image start_point end_point color thickness = image) ∧
    (Task1.validate_coordinates image [center.1, center.2, radius] "circle" = some false →
      Task1.draw_circle cv2_circle image center radius color thickness = image) ∧
    (Task1.validate_coordinates image [position.1, position.2] "text" = some false →
      Task1.draw_text cv2_putText image text position font font_scale color
        thickness line_type = image) := by
  refine ⟨fun h => ?_, fun h => ?_, fun h => ?_⟩ <;>
    simp [Task1.draw_rectangle, Task1.draw_circle, Task1.draw_text, h]

/-- Witness for C3: on a 4×4 buffer, an inverted rectangle, an
out-of-bounds circle and an out-of-bounds text anchor are all skipped,
even though the supplied primitives would repaint the whole buffer. -/
theorem invalid_shape_render_noop_witness :
    Task1.draw_rectangle (fun _ _ _ _ _ => zero_canvas 1 1) ⟨4, 4, []⟩
        (3, 3) (1, 1) (0, 0, 255) 2 = ⟨4, 4, []⟩ ∧
    Task1.draw_circle (fun _ _ _ _ _ => zero_canvas 1 1) ⟨4, 4, []⟩
        (0, 0) 2 (0, 255, 0) 2 = ⟨4, 4, []⟩ ∧
    Task1.draw_text (fun _ _ _ _ _ _ _ _ => zero_canvas 1 1) ⟨4, 4, []⟩
        "Sample Text" (9, 9) 0 1 (255, 0, 0) 2 8 = ⟨4, 4, []⟩ := by
  have h := invalid_shape_render_noop
    (fun _ _ _ _ _ => zero_canvas 1 1) (fun _ _ _ _ _ => zero_canvas 1 1)
    (fun _ _ _ _ _ _ _ _ => zero_canvas 1 1) ⟨4, 4, []⟩
    (3, 3) (1, 1) (0, 0, 255) 2 (0, 0) 2 "Sample Text" (9, 9) 0 1 8
  exact ⟨h.1 (by decide), h.2.1 (by decide), h.2.2 (by decide)⟩

/-- C7: with any filesystem and decoder, a `none` path, a path that does
not exist, or a path whose decode fails all produce the fixed 400×600×3
all-zero canvas — in both task variants, and with no error raised (the
function is total). -/
theorem load_image_fallback_black (pathExists : String → Bool)
    (imread : String → Option Img) (image_path : Option String)
    (h : image_path = none ∨
         (∃ p, image_path = some p ∧ pathExists p = false) ∨
         (∃ p, image_path = some p ∧ imread p = none)) :
    Task1.load_image pathExists imread image_path = blackCanvas ∧
    Task2.load_image pathExists imread image_path = blackCanvas ∧
    blackCanvas.height = 400 ∧ blackCanvas.width = 600 ∧
    blackCanvas.data = List.replicate 400 (List.replicate 600 ((0, 0, 0) : Color)) := by
  have h1 : Task1.load_image pathExists imread image_path = blackCanvas := by
    rcases h with rfl | ⟨p, rfl, hp⟩ | ⟨p, rfl, hp⟩
    · rfl
    · simp [Task1.load_image, hp]
    · by_cases hc : p ≠ "" ∧ pathExists p = true
      · simp [Task1.load_image, hc, hp]
      · simp [Task1.load_image, hc]
  exact ⟨h1, h1, rfl, rfl, rfl⟩

/-- Witness for C7: a `none` path under an empty filesystem model. -/
theorem load_image_fallback_black_witness :
    Task1.load_image (fun _ => false) (fun _ => none) none = blackCanvas ∧
    Task2.load_image (fun _ => false) (fun _ => none) none = blackCanvas ∧
    blackCanvas.height = 400 ∧ blackCanvas.width = 600 ∧
    blackCanvas.data = List.replicate 400 (List.replicate 600 ((0, 0, 0) : Color)) :=
  load_image_fallback_black (fun _ => false) (fun _ => none) none (Or.inl rfl)

/-- C10: the two `load_image` implementations, duplicated across the two
task files, are extensionally equal on every filesystem, decoder and path
argument. -/
theorem load_image_variants_agree (pathExists : String → Bool)
    (imread : String → Option Img) (image_path : Option String) :
    Task1.load_image pathExists imread image_path =
      Task2.load_image pathExists imread image_path := rfl

/-! ## Theorems about the Kernel Builder -/

/-- Summing an all-zero list with one entry overwritten yields that entry. -/
lemma sum_replicate_zero_set (n c : Nat) (a : ℚ) (h : c < n) :
    ((List.replicate n (0 : ℚ)).set c a).sum = a := by
  induction n generalizing c with
  | zero => omega
  | succ m ih =>
    cases c with
    | zero => simp [List.replicate_succ]
    | succ k =>
      simp only [List.replicate_succ, List.set_cons_succ, List.sum_cons,
        ih k (by omega), zero_add]

/-- Summing `size` copies of `1 / size` gives `1`. -/
lemma nsmul_inv_self (size : Int) (hpos : 1 ≤ size) :
    size.toNat • ((size : ℚ))⁻¹ = 1 := by
  have h0 : ((size.toNat : ℚ)) = ((size : ℚ)) := by
    rw [show ((size.toNat : ℚ)) = (((size.toNat : ℤ)) : ℚ) by push_cast; ring]
    rw [Int.toNat_of_nonneg (by omega)]
  have hq : ((size : ℚ)) ≠ 0 := by
    simpa using (show ((size : ℚ)) ≠ ((0 : ℤ) : ℚ) by exact_mod_cast (by omega : size ≠ 0))
  rw [nsmul_eq_mul, h0, mul_inv_cancel₀ hq]

/-- Under the odd-size guard, the horizontal branch of the builder yields
the zero matrix with the center row overwritten by `1 / size` entries. -/
lemma create_kernel_horizontal_eq (size : Int) (hodd : size % 2 = 1)
    (hpos : 1 ≤ size) :
    Task2.create_motion_blur_kernel size ("horizontal") =
      .ok ((List.replicate size.toNat (List.replicate size.toNat (0 : ℚ))).set
            ((size.toNat - 1) / 2) (List.replicate size.toNat ((size : ℚ))⁻¹)) := by
  have h1 : ¬(size % 2 = 0) := by omega
  have h2 : ¬(size < 0) := by omega
  simp [Task2.create_motion_blur_kernel, h1, h2]
  rfl

/-- Under the odd-size guard, the vertical branch of the builder yields
rows that are zero except for a `1 / size` entry in the center column. -/
lemma create_kernel_vertical_eq (size : Int) (hodd : size % 2 = 1)
    (hpos : 1 ≤ size) :
    Task2.create_motion_blur_kernel size ("vertical") =
      .ok (List.replicate size.toNat
            ((List.replicate size.toNat (0 : ℚ)).set
              ((size.toNat - 1) / 2) ((size : ℚ))⁻¹)) := by
  have h1 : ¬(size % 2 = 0) := by omega
  have h2 : ¬(size < 0) := by omega
  simp [Task2.create_motion_blur_kernel, h1, h2]
  rfl

/-- C1: for every odd `size ≥ 1` and either recognized direction, the
builder returns a `size×size` matrix whose center row (horizontal) or
center column (vertical) at index `(size-1)/2` holds `1/size` in every
cell, all other cells are `0`, and all weights sum to `1`. -/
theorem kernel_center_line_normalized (size : Int) (direction : String)
    (hodd : size % 2 = 1) (hpos : 1 ≤ size)
    (hdir : direction = "horizontal" ∨ direction = "vertical") :
    ∃ k, Task2.create_motion_blur_kernel size direction = .ok k ∧
      k.length = size.toNat ∧
      (∀ row ∈ k, row.length = size.toNat) ∧
      (∀ i j, i < size.toNat → j < size.toNat →
        cell k i j =
          if (direction = "horizontal" ∧ i = (size.toNat - 1) / 2) ∨
             (direction = "vertical" ∧ j = (size.toNat - 1) / 2) then
            1 / (size : ℚ)
          else 0) ∧
      (k.map List.sum).sum = 1 := by
  have hn1 : 1 ≤ size.toNat := by omega
  have hc : (size.toNat - 1) / 2 < size.toNat := by omega
  rcases hdir with rfl | rfl
  · refine ⟨_, create_kernel_horizontal_eq size hodd hpos, ?_, ?_, ?_, ?_⟩
    · simp
    · intro row hrow
      rcases List.mem_or_eq_of_mem_set hrow with hmem | rfl
      · rw [List.eq_of_mem_replicate hmem]; simp
      · simp
    · intro i j hi hj
      have hrow : ((List.replicate size.toNat (List.replicate size.toNat (0 : ℚ))).set
          ((size.toNat - 1) / 2) (List.replicate size.toNat ((size : ℚ))⁻¹)).getD i [] =
          if (size.toNat - 1) / 2 = i then List.replicate size.toNat ((size : ℚ))⁻¹
          else List.replicate size.toNat (0 : ℚ) := by
        rw [List.getD_eq_getElem _ _ (by simpa using hi), List.getElem_set]
        by_cases hic : (size.toNat - 1) / 2 = i
        · rw [if_pos hic, if_pos hic]
        · rw [if_neg hic, if_neg hic, List.getElem_replicate]
      rw [cell, hrow]
      by_cases hic : (size.toNat - 1) / 2 = i
      · rw [if_pos hic]
        rw [List.getD_eq_getElem _ _ (by simpa using hj), List.getElem_replicate]
        simp [← hic, one_div]
      · rw [if_neg hic]
        rw [List.getD_eq_getElem _ _ (by simpa using hj), List.getElem_replicate]
        have hne : ¬(("horizontal" = "horizontal" ∧ i = (size.toNat - 1) / 2) ∨
            ("horizontal" = "vertical" ∧ j = (size.toNat - 1) / 2)) := by
          simp
          omega
        rw [if_neg hne]
    · rw [List.map_set, List.map_replicate, List.sum_replicate, smul_zero,
          List.sum_replicate, sum_replicate_zero_set _ _ _ hc, nsmul_inv_self size hpos]
  · refine ⟨_, create_kernel_vertical_eq size hodd hpos, ?_, ?_, ?_, ?_⟩
    · simp
    · intro row hrow
      rw [List.eq_of_mem_replicate hrow]; simp
    · intro i j hi hj
      have hrow : (List.replicate size.toNat ((List.replicate size.toNat (0 : ℚ)).set
          ((size.toNat - 1) / 2) ((size : ℚ))⁻¹)).getD i [] =
          (List.replicate size.toNat (0 : ℚ)).set ((size.toNat - 1) / 2) ((size : ℚ))⁻¹ := by
        rw [List.getD_eq_getElem _ _ (by simpa using hi), List.getElem_replicate]
      rw [cell, hrow]
      rw [List.getD_eq_getElem _ _ (by simpa using hj), List.getElem_set]
      by_cases hjc : (size.toNat - 1) / 2 = j
      · rw [if_pos hjc]
        simp [← hjc, one_div]
      · rw [if_neg hjc, List.getElem_replicate]
        have hne : ¬(("vertical" = "horizontal" ∧ i = (size.toNat - 1) / 2) ∨
            ("vertical" = "vertical" ∧ j = (size.toNat - 1) / 2)) := by
          simp
          omega
        rw [if_neg hne]
    · rw [List.map_replicate, sum_replicate_zero_set _ _ _ hc, List.sum_replicate,
          nsmul_inv_self size hpos]

/-- Witness for C1 at `size = 3`, horizontal direction. -/
theorem kernel_center_line_normalized_witness :
    ∃ k, Task2.create_motion_blur_kernel 3 "horizontal" = .ok k ∧
      k.length = (3 : Int).toNat ∧
      (∀ row ∈ k, row.length = (3 : Int).toNat) ∧
      (∀ i j, i < (3 : Int).toNat → j < (3 : Int).toNat →
        cell k i j =
          if ("horizontal" = "horizontal" ∧ i = ((3 : Int).toNat - 1) / 2) ∨
             ("horizontal" = "vertical" ∧ j = ((3 : Int).toNat - 1) / 2) then
            1 / ((3 : Int) : ℚ)
          else 0) ∧
      (k.map List.sum).sum = 1 :=
  kernel_center_line_normalized 3 "horizontal" (by decide) (by decide) (Or.inl rfl)

/-- C2: the builder fails (raises `ValueError`, modelled as `Except.error`,
returning no kernel) for every even size and for every direction other
than the two recognized values. -/
theorem kernel_invalid_param_fails (size : Int) (direction : String)
    (h : size % 2 = 0 ∨ (direction ≠ "horizontal" ∧ direction ≠ "vertical")) :
    ∃ msg, Task2.create_motion_blur_kernel size direction = .error msg := by
  by_cases he : size % 2 = 0
  · exact ⟨"kernel_size must be an odd number",
      by simp [Task2.create_motion_blur_kernel, he]; rfl⟩
  · have hd := h.resolve_left he
    by_cases hneg : size < 0
    · exact ⟨"negative dimensions are not allowed",
        by simp [Task2.create_motion_blur_kernel, he, hneg]; rfl⟩
    · exact ⟨"direction must be horizontal or vertical",
        by simp [Task2.create_motion_blur_kernel, he, hneg, hd.1, hd.2]; rfl⟩

/-- Witness for C2: even size 4, and an unrecognized direction at odd
size 3, both fail. -/
theorem kernel_invalid_param_fails_witness :
    (∃ msg, Task2.create_motion_blur_kernel 4 "horizontal" = .error msg) ∧
    (∃ msg, Task2.create_motion_blur_kernel 3 "diagonal" = .error msg) :=
  ⟨kernel_invalid_param_fails 4 "horizontal" (Or.inl (by decide)),
   kernel_invalid_param_fails 3 "diagonal" (Or.inr ⟨by decide, by decide⟩)⟩

/-! ## Theorems about the Blur Applier -/

/-- Two buffers with equal fields are equal. -/
lemma Img_eq (a b : Img) (h1 : a.height = b.height) (h2 : a.width = b.width)
    (h3 : a.data = b.data) : a = b := by
  cases a; cases b; simp_all

/-- Every pixel read from an all-zero canvas is black. -/
lemma pixelAt_zero_canvas (H W y x : Nat) :
    Task2.pixelAt (zero_canvas H W) y x = ((0, 0, 0) : Color) := by
  have hrow : (zero_canvas H W).data.getD y [] = List.replicate W ((0, 0, 0) : Color) ∨
      (zero_canvas H W).data.getD y [] = [] := by
    rw [show (zero_canvas H W).data = List.replicate H (List.replicate W ((0, 0, 0) : Color))
      from rfl]
    rcases Nat.lt_or_ge y H with hy | hy
    · exact Or.inl (by rw [List.getD_eq_getElem _ _ (by simpa using hy), List.getElem_replicate])
    · exact Or.inr (by rw [List.getD_eq_default _ _ (by simpa using hy)])
  unfold Task2.pixelAt
  rcases hrow with h | h
  · rw [h]
    rcases Nat.lt_or_ge x W with hx | hx
    · rw [List.getD_eq_getElem _ _ (by simpa using hx), List.getElem_replicate]
    · rw [List.getD_eq_default _ _ (by simpa using hx)]
  · rw [h]
    rfl

/-- On an all-zero canvas every correlation sum vanishes, whatever the
kernel and channel. -/
lemma convSum_zero_canvas (H W : Nat) (kernel : List (List ℚ)) (sel : Color → Nat)
    (hsel : sel ((0, 0, 0) : Color) = 0) (y x : Nat) :
    Task2.convSum (zero_canvas H W) kernel sel y x = 0 := by
  unfold Task2.convSum
  apply List.sum_eq_zero
  intro a ha
  simp only [List.mem_map] at ha
  obtain ⟨i, hi, rfl⟩ := ha
  apply List.sum_eq_zero
  intro b hb
  simp only [List.mem_map] at hb
  obtain ⟨j, hj, rfl⟩ := hb
  rw [pixelAt_zero_canvas, hsel]
  simp

/-- Convolving an all-zero canvas with any kernel returns the canvas. -/
lemma apply_motion_blur_zero_canvas (H W : Nat) (kernel : List (List ℚ)) :
    Task2.apply_motion_blur (zero_canvas H W) kernel = zero_canvas H W := by
  have h1 : ∀ y x, Task2.convSum (zero_canvas H W) kernel (fun c => c.1) y x = 0 :=
    fun y x => convSum_zero_canvas H W kernel _ rfl y x
  have h2 : ∀ y x, Task2.convSum (zero_canvas H W) kernel (fun c => c.2.1) y x = 0 :=
    fun y x => convSum_zero_canvas H W kernel _ rfl y x
  have h3 : ∀ y x, Task2.convSum (zero_canvas H W) kernel (fun c => c.2.2) y x = 0 :=
    fun y x => convSum_zero_canvas H W kernel _ rfl y x
  have hsat : Task2.saturate_u8 0 = 0 := by norm_num [Task2.saturate_u8]
  unfold Task2.apply_motion_blur
  apply Img_eq
  · rfl
  · rfl
  · simp only [h1, h2, h3, hsat]
    rw [show (zero_canvas H W).height = H from rfl, show (zero_canvas H W).width = W from rfl,
       show (zero_canvas H W).data = List.replicate H (List.replicate W ((0, 0, 0) : Color))
         from rfl]
    simp only [List.map_const', List.length_range]

/-- C9: applying the horizontal size-15 motion-blur kernel to an all-zero
buffer of any dimensions yields the same all-zero buffer. -/
theorem motion_blur_on_zero_canvas (H W : Nat) :
    (Task2.create_motion_blur_kernel 15 "horizontal").map
      (fun k => Task2.apply_motion_blur (zero_canvas H W) k) = .ok (zero_canvas H W) := by
  obtain ⟨k, hk⟩ : ∃ k, Task2.create_motion_blur_kernel 15 "horizontal" = .ok k := ⟨_, rfl⟩
  rw [hk]
  show Except.ok (Task2.apply_motion_blur (zero_canvas H W) k) = Except.ok (zero_canvas H W)
  rw [apply_motion_blur_zero_canvas]
